import Mathlib

/-!
Verification of the bollardo single-node container reconciler
(src/main.rs) against its natural-language specification.

The Rust program is embedded shallowly: every `async fn` becomes a pure
Lean function taking an explicit `RuntimeEnv` (the oracle answering each
Docker-API call) and returning the list of requests it issued (`Action`
trace) together with its `Except`-style result.  `Instant` is modelled as
a `Nat` count of seconds, so `elapsed` is truncated subtraction on a
monotone clock.
-/

namespace Bollardo

/-- `SERVICE_NAME` constant from main.rs line 16. -/
def SERVICE_NAME : String := "demo-nginx"

/-- `IMAGE` constant from main.rs line 17. -/
def IMAGE : String := "nginx:alpine"

/-- `DESIRED_REPLICAS` constant from main.rs line 18. -/
def DESIRED_REPLICAS : Nat := 3

/-- `MAX_CONSECUTIVE_FAILURES` constant from main.rs line 20. -/
def MAX_CONSECUTIVE_FAILURES : Nat := 5

/-- `BACKOFF_DURATION_SECS` constant from main.rs line 21. -/
def BACKOFF_DURATION_SECS : Nat := 30

/-- `FAILURE_RESET_AFTER_SECS` constant from main.rs line 22. -/
def FAILURE_RESET_AFTER_SECS : Nat := 300

/-- Errors of the runtime client (`bollard::errors::Error`), kept abstract
as a message string: the program never scrutinises an error, it only
propagates it. -/
abbrev RError := String

/-- The `ContainerSummaryStateEnum` values of the bollard API that the
program can observe (`EMPTY` is the default used for a missing state). -/
inductive SummaryState
  | running
  | created
  | restarting
  | exited
  | paused
  | dead
  | removing
  | empty
deriving DecidableEq, Repr

/-- One record of the `list_containers` response: `id`, `state` and
`status` are all optional, exactly as in `bollard::models::ContainerSummary`. -/
structure ContainerSummary where
  id : Option String
  state : Option SummaryState
  status : Option String
deriving DecidableEq, Repr

/-- A request issued to the Docker daemon, recorded in the order the
program awaits the corresponding call. -/
inductive Action
  | stop (id : String) (graceSecs : Nat)
  | remove (id : String) (force : Bool)
  | create (name : String) (image : String)
  | start (id : String)
  | inspect (id : String)
  | settleSleep (secs : Nat)
deriving DecidableEq, Repr

/-- The oracle answering each Docker call: what `list_containers` returns,
the `version` label each `inspect_container` reports, the outcome of each
stop/remove/create/start, and the stream of fresh UUIDs
(`Uuid::new_v4()` for the n-th spawn of the tick).  `createResult` returns
the container id the daemon reports for a created name. -/
structure RuntimeEnv where
  listResult : Except RError (List ContainerSummary)
  inspectVersion : String → Except RError (Option String)
  stopResult : String → Except RError Unit
  removeResult : String → Except RError Unit
  createResult : String → Except RError String
  startResult : String → Except RError Unit
  uuidAt : Nat → String

/-- Characters of `needle` match `hay` at its head. -/
def chars_match_at (needle hay : List Char) : Bool :=
  match needle, hay with
  | [], _ => true
  | _ :: _, [] => false
  | n :: ns, h :: hs => n == h && chars_match_at ns hs

/-- `hay` has `needle` as a contiguous subsequence (model of Rust
`str::contains`). -/
def chars_contain (hay needle : List Char) : Bool :=
  match hay with
  | [] => chars_match_at needle []
  | h :: hs => chars_match_at needle (h :: hs) || chars_contain hs needle

/-- Rust `str::contains` for `String`s. -/
def strContains (hay needle : String) : Bool :=
  chars_contain hay.data needle.data

/-- Model of Rust `str::to_lowercase`, character-wise (the statuses the
program compares are ASCII, where the two coincide). -/
def strToLower (s : String) : String :=
  String.mk (s.data.map Char.toLower)

/-- `c.id.unwrap_or_default()` (main.rs line 93). -/
def idOf (c : ContainerSummary) : String := c.id.getD ""

/-- The hybrid health classification of main.rs lines 93-99: state defaults
to `EMPTY`, status defaults to `""` and is lowercased, and the record is
running iff the state is `RUNNING` or the lowercased status contains
`"up"` or contains `"running"`. -/
def isRunningRecord (c : ContainerSummary) : Bool :=
  let state := c.state.getD SummaryState.empty
  let status := strToLower (c.status.getD "")
  state == SummaryState.running || strContains status "up" ||
    strContains status "running"

/-- The classification loop of main.rs lines 89-106: partitions the
observed records into the `running` and `dead` id sequences, preserving
observation order. -/
def classify : List ContainerSummary → List String × List String
  | [] => ([], [])
  | c :: rest =>
    let inv := classify rest
    if isRunningRecord c then (idOf c :: inv.1, inv.2)
    else (inv.1, idOf c :: inv.2)

/-- `BackoffState` (main.rs lines 24-28); `last_failure` holds the instant
of the last failure as seconds on the monotone clock. -/
structure BackoffState where
  consecutive_failures : Nat
  last_failure : Option Nat
deriving DecidableEq, Repr

/-- `BackoffState::register_failure` (main.rs lines 31-34), with `now` the
current instant. -/
def register_failure (b : BackoffState) (now : Nat) : BackoffState :=
  { consecutive_failures := b.consecutive_failures + 1, last_failure := some now }

/-- `BackoffState::maybe_reset` (main.rs lines 36-43): clears the state
when a last failure exists and more than `FAILURE_RESET_AFTER_SECS` have
elapsed since it. -/
def maybe_reset (b : BackoffState) (now : Nat) : BackoffState :=
  match b.last_failure with
  | some last =>
    if FAILURE_RESET_AFTER_SECS < now - last then
      { consecutive_failures := 0, last_failure := none }
    else b
  | none => b

/-- `BackoffState::in_backoff` (main.rs lines 45-54). -/
def in_backoff (b : BackoffState) (now : Nat) : Bool :=
  match b.last_failure with
  | some last =>
    MAX_CONSECUTIVE_FAILURES ≤ b.consecutive_failures &&
      now - last < BACKOFF_DURATION_SECS
  | none => false

/-- Lines 115-119 of `reconcile`: register a failure when `dead` is
non-empty, otherwise maybe reset. -/
def step_backoff (b : BackoffState) (now : Nat) (dead : List String) : BackoffState :=
  if dead.isEmpty then maybe_reset b now else register_failure b now

/-- `graceful_remove_container` (main.rs lines 233-256): a stop request
with 5 s grace whose result is discarded, then a remove request with
`force: false` whose result is the function's result. -/
def graceful_remove_container (env : RuntimeEnv) (id : String) :
    List Action × Except RError Unit :=
  let _stopped := env.stopResult id
  ([Action.stop id 5, Action.remove id false], env.removeResult id)

/-- The generated replica name `format!("{}-{}", SERVICE_NAME, uuid)`
(main.rs line 186). -/
def mk_container_name (uuid : String) : String :=
  SERVICE_NAME ++ "-" ++ uuid

/-- `spawn_replica_and_get_id` (main.rs lines 185-215): create under the
generated name (the daemon-reported id is discarded), then start the
generated name; returns the generated name. -/
def spawn_replica_and_get_id (env : RuntimeEnv) (uuid : String) :
    List Action × Except RError String :=
  let container_name := mk_container_name uuid
  match env.createResult container_name with
  | Except.error e => ([Action.create container_name IMAGE], Except.error e)
  | Except.ok _created_id =>
    match env.startResult container_name with
    | Except.error e =>
      ([Action.create container_name IMAGE, Action.start container_name],
        Except.error e)
    | Except.ok _ =>
      ([Action.create container_name IMAGE, Action.start container_name],
        Except.ok container_name)

/-- `perform_rolling_update` (main.rs lines 258-274); `i` indexes the
UUID stream for successive spawns of this tick. -/
def perform_rolling_update (env : RuntimeEnv) :
    Nat → List String → List Action × Except RError Unit
  | _, [] => ([], Except.ok ())
  | i, old_id :: rest =>
    match spawn_replica_and_get_id env (env.uuidAt i) with
    | (a1, Except.error e) => (a1, Except.error e)
    | (a1, Except.ok _new_id) =>
      match graceful_remove_container env old_id with
      | (a2, Except.error e) => (a1 ++ [Action.settleSleep 3] ++ a2, Except.error e)
      | (a2, Except.ok _) =>
        match perform_rolling_update env (i + 1) rest with
        | (a3, r) => (a1 ++ [Action.settleSleep 3] ++ a2 ++ a3, r)

/-- The sequential removal loops of `reconcile` (main.rs lines 121-124 for
`dead`, lines 175-177 for scale-down): remove each id in order, an error
aborting the rest. -/
def remove_each (env : RuntimeEnv) : List String → List Action × Except RError Unit
  | [] => ([], Except.ok ())
  | id :: rest =>
    match graceful_remove_container env id with
    | (a, Except.error e) => (a, Except.error e)
    | (a, Except.ok _) =>
      match remove_each env rest with
      | (a2, r) => (a ++ a2, r)

/-- The drift-inspection loop of `reconcile` (main.rs lines 128-145):
inspect each running id in order, collecting into `outdated` every id
whose `version` label differs from `IMAGE`; an inspect error aborts the
loop. -/
def collect_outdated (env : RuntimeEnv) :
    List String → List Action × Except RError (List String)
  | [] => ([], Except.ok [])
  | id :: rest =>
    match env.inspectVersion id with
    | Except.error e => ([Action.inspect id], Except.error e)
    | Except.ok version =>
      match collect_outdated env rest with
      | (a, Except.error e) => (Action.inspect id :: a, Except.error e)
      | (a, Except.ok outdated) =>
        (Action.inspect id :: a,
          Except.ok (if version = some IMAGE then outdated else id :: outdated))

/-- The spawn loop of `reconcile` (main.rs lines 165-167): spawn `n`
replicas sequentially, an error aborting the rest; `i` indexes the UUID
stream. -/
def spawn_many (env : RuntimeEnv) : Nat → Nat → List Action × Except RError Unit
  | _, 0 => ([], Except.ok ())
  | i, Nat.succ n =>
    match spawn_replica_and_get_id env (env.uuidAt i) with
    | (a, Except.error e) => (a, Except.error e)
    | (a, Except.ok _) =>
      match spawn_many env (i + 1) n with
      | (a2, r) => (a ++ a2, r)

/-- `reconcile` (main.rs lines 73-183), one tick: list and classify, update
backoff, remove dead, inspect for drift, then rolling update / scale-up
(gated by backoff) / scale-down / no-op.  `desired` mirrors the
`DESIRED_REPLICAS` constant; the returned triple is the issued requests,
the updated backoff state and the tick's result. -/
def reconcile (env : RuntimeEnv) (b : BackoffState) (now : Nat) (desired : Nat) :
    List Action × BackoffState × Except RError Unit :=
  match env.listResult with
  | Except.error e => ([], b, Except.error e)
  | Except.ok containers =>
    let inv := classify containers
    let running := inv.1
    let dead := inv.2
    let b1 := step_backoff b now dead
    match remove_each env dead with
    | (aDead, Except.error e) => (aDead, b1, Except.error e)
    | (aDead, Except.ok _) =>
      let running_count := running.length
      match collect_outdated env running with
      | (aIns, Except.error e) => (aDead ++ aIns, b1, Except.error e)
      | (aIns, Except.ok outdated) =>
        if !outdated.isEmpty then
          match perform_rolling_update env 0 running with
          | (aRoll, r) => (aDead ++ aIns ++ aRoll, b1, r)
        else if running_count < desired then
          if in_backoff b1 now then (aDead ++ aIns, b1, Except.ok ())
          else
            match spawn_many env 0 (desired - running_count) with
            | (aSp, r) => (aDead ++ aIns ++ aSp, b1, r)
        else if desired < running_count then
          match remove_each env (running.take (running_count - desired)) with
          | (aKill, r) => (aDead ++ aIns ++ aKill, b1, r)
        else (aDead ++ aIns, b1, Except.ok ())

/-- What one iteration of `main`'s loop (main.rs lines 64-70) does with the
tick's result: the log line it emits, and whether the loop continues
(after the fixed 5 s sleep) or the process exits. -/
inductive LoopStep
  | continueAfterSleep (secs : Nat)
  | exitProcess
deriving DecidableEq, Repr

/-- The body of `main`'s loop (main.rs lines 64-70): an error is logged and
the loop sleeps 5 s and continues; success also sleeps and continues. -/
def loop_iteration (r : Except RError Unit) : Option String × LoopStep :=
  match r with
  | Except.error e =>
    (some ("reconcile error: " ++ e), LoopStep.continueAfterSleep 5)
  | Except.ok _ => (none, LoopStep.continueAfterSleep 5)

/-- Spec-side measurement: is this request a container creation? -/
def is_create_action : Action → Bool
  | Action.create _ _ => true
  | _ => false

/-- Spec-side measurement: is this request a container removal? -/
def is_remove_action : Action → Bool
  | Action.remove _ _ => true
  | _ => false

/-- Spec-side measurement: number of creations in a trace. -/
def count_creates (acts : List Action) : Nat :=
  acts.countP is_create_action

/-- Spec-side measurement: number of removals in a trace. -/
def count_removes (acts : List Action) : Nat :=
  acts.countP is_remove_action

/-- Spec-side measurement: the targets of the removal requests of a trace,
in order. -/
def remove_targets (acts : List Action) : List String :=
  acts.filterMap fun a =>
    match a with
    | Action.remove id _ => some id
    | _ => none

/-- Spec-side (section 4.5 of the spec): the request sequence of a rolling
update in which every step succeeds — for each running replica in order,
create and start one fresh replica, sleep the 3 s settle delay, then stop
(5 s grace) and remove the old one. -/
def spec_rolling_trace (env : RuntimeEnv) : Nat → List String → List Action
  | _, [] => []
  | i, old_id :: rest =>
    let name := mk_container_name (env.uuidAt i)
    Action.create name IMAGE :: Action.start name :: Action.settleSleep 3 ::
      Action.stop old_id 5 :: Action.remove old_id false ::
      spec_rolling_trace env (i + 1) rest

/-- Spec-side (section 4.1 of the spec): case-insensitive substring
containment, the spec's wording for the status test. -/
def ci_contains (s needle : String) : Bool :=
  strContains (strToLower s) (strToLower needle)

/-- Spec-side measurement: is this request an inspection? -/
def is_inspect_action : Action → Bool
  | Action.inspect _ => true
  | _ => false

/-- Spec-side measurement: number of inspections in a trace. -/
def count_inspects (acts : List Action) : Nat :=
  acts.countP is_inspect_action

/-! ## Concrete runtime environments and inventories used by witnesses -/

/-- An all-successful runtime: the list call returns `cs`, every inspect
reports version label `ver`, stop/remove/start succeed, create reports the
daemon id `"daemon-id-000"`, and the n-th fresh UUID is `"uuid" ++ n`. -/
def mkEnv (cs : List ContainerSummary) (ver : Option String) : RuntimeEnv where
  listResult := Except.ok cs
  inspectVersion := fun _ => Except.ok ver
  stopResult := fun _ => Except.ok ()
  removeResult := fun _ => Except.ok ()
  createResult := fun _ => Except.ok "daemon-id-000"
  startResult := fun _ => Except.ok ()
  uuidAt := fun n => "uuid" ++ toString n

/-- A runtime with one exited container whose removal fails. -/
def envRemoveFail : RuntimeEnv where
  listResult := Except.ok [⟨some "d1", some SummaryState.exited, some "Exited (1)"⟩]
  inspectVersion := fun _ => Except.ok (some IMAGE)
  stopResult := fun _ => Except.ok ()
  removeResult := fun _ => Except.error "remove failed"
  createResult := fun _ => Except.ok "daemon-id-000"
  startResult := fun _ => Except.ok ()
  uuidAt := fun n => "uuid" ++ toString n

/-- A single healthy replica, as observed. -/
def cs_one_running : List ContainerSummary :=
  [⟨some "c1", some SummaryState.running, some "Up 2 minutes"⟩]

/-- Five healthy replicas, as observed. -/
def cs_five_running : List ContainerSummary :=
  [⟨some "c1", some SummaryState.running, some "Up 2 minutes"⟩,
   ⟨some "c2", some SummaryState.running, some "Up 2 minutes"⟩,
   ⟨some "c3", some SummaryState.running, some "Up 2 minutes"⟩,
   ⟨some "c4", some SummaryState.running, some "Up 2 minutes"⟩,
   ⟨some "c5", some SummaryState.running, some "Up 2 minutes"⟩]

/-- Three healthy replicas, as observed. -/
def cs_three_running : List ContainerSummary :=
  [⟨some "c1", some SummaryState.running, some "Up 2 minutes"⟩,
   ⟨some "c2", some SummaryState.running, some "Up 2 minutes"⟩,
   ⟨some "c3", some SummaryState.running, some "Up 2 minutes"⟩]

/-- Two records that both default their missing id to `""`, one healthy
and one exited. -/
def cs_dup_ids : List ContainerSummary :=
  [⟨none, none, some "Up 9 seconds"⟩,
   ⟨none, some SummaryState.exited, some "Exited (1)"⟩]

/-- Two healthy replicas with distinct ids. -/
def cs_two_distinct : List ContainerSummary :=
  [⟨some "a", none, some "Up 9 seconds"⟩,
   ⟨some "b", some SummaryState.exited, some "Exited (1)"⟩]

/-! ## Helper lemmas about the loop embeddings -/

theorem remove_each_ok_append (env : RuntimeEnv) (xs ys : List String)
    (h : (remove_each env xs).2 = Except.ok ()) :
    remove_each env (xs ++ ys) =
      ((remove_each env xs).1 ++ (remove_each env ys).1, (remove_each env ys).2) := by
  induction xs with
  | nil => simp [remove_each]
  | cons x xs ih =>
    simp only [remove_each, List.cons_append] at h ⊢
    cases hr : env.removeResult x with
    | error e =>
      simp [graceful_remove_container, hr] at h
    | ok u =>
      simp only [graceful_remove_container, hr] at h ⊢
      cases hrest : remove_each env xs with
      | mk a2 r2 =>
        simp only [hrest] at h ⊢
        subst h
        have := ih (by simp [hrest])
        simp only [hrest] at this
        simp [this, List.append_assoc]

theorem remove_each_no_creates (env : RuntimeEnv) (ids : List String) :
    count_creates (remove_each env ids).1 = 0 := by
  induction ids with
  | nil => simp [remove_each, count_creates]
  | cons x xs ih =>
    simp only [remove_each, graceful_remove_container]
    cases hr : env.removeResult x with
    | error e => simp [count_creates, List.countP_cons, is_create_action]
    | ok u =>
      cases hrest : remove_each env xs with
      | mk a2 r2 =>
        simp only [hrest] at ih
        simp only [count_creates, List.countP_append, List.countP_cons,
          is_create_action] at ih ⊢
        simpa using ih

theorem remove_each_targets (env : RuntimeEnv) (ids : List String)
    (h : (remove_each env ids).2 = Except.ok ()) :
    remove_targets (remove_each env ids).1 = ids := by
  induction ids with
  | nil => simp [remove_each, remove_targets]
  | cons x xs ih =>
    simp only [remove_each, graceful_remove_container] at h ⊢
    cases hr : env.removeResult x with
    | error e => simp [hr] at h
    | ok u =>
      simp only [hr] at h ⊢
      cases hrest : remove_each env xs with
      | mk a2 r2 =>
        simp only [hrest] at h ⊢
        subst h
        have := ih (by simp [hrest])
        simp only [hrest] at this
        simp [remove_targets, List.filterMap_append] at this ⊢
        exact this

theorem collect_outdated_ok_trace (env : RuntimeEnv) (ids : List String)
    (a : List Action) (out : List String)
    (h : collect_outdated env ids = (a, Except.ok out)) :
    a = ids.map Action.inspect := by
  induction ids generalizing a out with
  | nil =>
    simp [collect_outdated] at h
    simp [h.1]
  | cons x xs ih =>
    simp only [collect_outdated] at h
    cases hi : env.inspectVersion x with
    | error e => simp [hi] at h
    | ok v =>
      simp only [hi] at h
      cases hrest : collect_outdated env xs with
      | mk a2 r2 =>
        simp only [hrest] at h
        cases r2 with
        | error e => simp at h
        | ok out2 =>
          simp only at h
          obtain ⟨ha, _⟩ := Prod.mk.injEq .. ▸ h
          have := ih a2 out2 (by simp [hrest])
          simp [List.map_cons, ← ha, this]

theorem collect_outdated_nil_iff (env : RuntimeEnv) (ids : List String)
    (a : List Action) (out : List String)
    (h : collect_outdated env ids = (a, Except.ok out)) :
    out = [] ↔ ∀ id ∈ ids, env.inspectVersion id = Except.ok (some IMAGE) := by
  induction ids generalizing a out with
  | nil =>
    simp [collect_outdated] at h
    simp [h.2]
  | cons x xs ih =>
    simp only [collect_outdated] at h
    cases hi : env.inspectVersion x with
    | error e => simp [hi] at h
    | ok v =>
      simp only [hi] at h
      cases hrest : collect_outdated env xs with
      | mk a2 r2 =>
        simp only [hrest] at h
        cases r2 with
        | error e => simp at h
        | ok out2 =>
          simp only at h
          obtain ⟨-, hout⟩ := Prod.mk.injEq .. ▸ h
          have hout' : (if v = some IMAGE then out2 else x :: out2) = out := by
            exact Except.ok.inj hout
          have hrec := ih a2 out2 (by simp [hrest])
          by_cases hv : v = some IMAGE
          · subst hv
            simp only [if_pos rfl] at hout'
            subst hout'
            simp [hi, hrec]
          · simp only [if_neg hv] at hout'
            subst hout'
            simp only [List.mem_cons]
            constructor
            · intro hc
              exact absurd hc (List.cons_ne_nil x out2)
            · intro hall
              have := hall x (Or.inl rfl)
              rw [hi] at this
              exact absurd (Except.ok.inj this) hv

theorem spawn_ok (env : RuntimeEnv) (uuid : String) (a : List Action) (x : String)
    (h : spawn_replica_and_get_id env uuid = (a, Except.ok x)) :
    a = [Action.create (mk_container_name uuid) IMAGE,
         Action.start (mk_container_name uuid)] ∧ x = mk_container_name uuid := by
  simp only [spawn_replica_and_get_id] at h
  cases hc : env.createResult (mk_container_name uuid) with
  | error e => simp [hc] at h
  | ok cid =>
    simp only [hc] at h
    cases hs : env.startResult (mk_container_name uuid) with
    | error e => simp [hs] at h
    | ok u =>
      simp only [hs] at h
      obtain ⟨h1, h2⟩ := Prod.mk.injEq .. ▸ h
      exact ⟨h1.symm, (Except.ok.inj h2).symm⟩

theorem spawn_trace_counts (env : RuntimeEnv) (uuid : String) :
    count_removes (spawn_replica_and_get_id env uuid).1 = 0 ∧
      count_creates (spawn_replica_and_get_id env uuid).1 = 1 := by
  simp only [spawn_replica_and_get_id]
  cases hc : env.createResult (mk_container_name uuid) with
  | error e => simp [count_removes, count_creates, is_remove_action, is_create_action]
  | ok cid =>
    cases hs : env.startResult (mk_container_name uuid) with
    | error e => simp [count_removes, count_creates, is_remove_action, is_create_action]
    | ok u => simp [count_removes, count_creates, is_remove_action, is_create_action]

theorem spawn_many_no_removes (env : RuntimeEnv) (n : Nat) : ∀ i,
    count_removes (spawn_many env i n).1 = 0 := by
  induction n with
  | zero => intro i; simp [spawn_many, count_removes]
  | succ n ih =>
    intro i
    simp only [spawn_many]
    cases hsp : spawn_replica_and_get_id env (env.uuidAt i) with
    | mk a r =>
      have hca : count_removes a = 0 := by
        have := (spawn_trace_counts env (env.uuidAt i)).1
        rwa [hsp] at this
      cases r with
      | error e => simpa using hca
      | ok x =>
        cases hrest : spawn_many env (i + 1) n with
        | mk a2 r2 =>
          have := ih (i + 1)
          rw [hrest] at this
          simp only [count_removes, List.countP_append] at hca this ⊢
          simp [hca, this]

theorem spawn_many_ok_creates (env : RuntimeEnv) (n : Nat) : ∀ i,
    (spawn_many env i n).2 = Except.ok () →
      count_creates (spawn_many env i n).1 = n := by
  induction n with
  | zero => intro i _; simp [spawn_many, count_creates]
  | succ n ih =>
    intro i h
    simp only [spawn_many] at h ⊢
    cases hsp : spawn_replica_and_get_id env (env.uuidAt i) with
    | mk a r =>
      rw [hsp] at h
      cases r with
      | error e => simp at h
      | ok x =>
        have hca : count_creates a = 1 := by
          have := (spawn_trace_counts env (env.uuidAt i)).2
          rwa [hsp] at this
        cases hrest : spawn_many env (i + 1) n with
        | mk a2 r2 =>
          rw [hrest] at h
          simp only at h
          have := ih (i + 1) (by rw [hrest]; exact h)
          rw [hrest] at this
          simp only [count_creates, List.countP_append] at hca this ⊢
          simp [hca, this, Nat.add_comm]

theorem perform_rolling_update_ok_trace (env : RuntimeEnv) (olds : List String) :
    ∀ i, (perform_rolling_update env i olds).2 = Except.ok () →
      (perform_rolling_update env i olds).1 = spec_rolling_trace env i olds := by
  induction olds with
  | nil => intro i _; simp [perform_rolling_update, spec_rolling_trace]
  | cons old rest ih =>
    intro i h
    simp only [perform_rolling_update] at h ⊢
    cases hsp : spawn_replica_and_get_id env (env.uuidAt i) with
    | mk a1 r1 =>
      rw [hsp] at h
      cases r1 with
      | error e => simp at h
      | ok newId =>
        obtain ⟨ha1, -⟩ := spawn_ok env (env.uuidAt i) a1 newId hsp
        simp only [graceful_remove_container] at h ⊢
        cases hrm : env.removeResult old with
        | error e => simp [hrm] at h
        | ok u =>
          rw [hrm] at h
          cases hrest : perform_rolling_update env (i + 1) rest with
          | mk a3 r3 =>
            rw [hrest] at h
            simp only at h
            have h3 : a3 = spec_rolling_trace env (i + 1) rest := by
              have := ih (i + 1) (by rw [hrest]; exact h)
              rw [hrest] at this
              exact this
            simp [hrm, hrest, spec_rolling_trace, ha1, h3]

theorem classify_perm (cs : List ContainerSummary) :
    ((classify cs).1 ++ (classify cs).2).Perm (cs.map idOf) := by
  induction cs with
  | nil => simp [classify]
  | cons c rest ih =>
    simp only [classify, List.map_cons]
    by_cases h : isRunningRecord c = true
    · rw [if_pos h]
      simpa using ih.cons (idOf c)
    · rw [if_neg h]
      exact List.perm_middle.trans (ih.cons (idOf c))

theorem reconcile_eq (env : RuntimeEnv) (b : BackoffState) (now desired : Nat)
    (cs : List ContainerSummary) (running dead : List String)
    (aD aI : List Action) (outdated : List String)
    (h1 : env.listResult = Except.ok cs)
    (h2 : classify cs = (running, dead))
    (h3 : remove_each env dead = (aD, Except.ok ()))
    (h4 : collect_outdated env running = (aI, Except.ok outdated)) :
    reconcile env b now desired =
      if !outdated.isEmpty then
        (aD ++ aI ++ (perform_rolling_update env 0 running).1,
          step_backoff b now dead, (perform_rolling_update env 0 running).2)
      else if running.length < desired then
        if in_backoff (step_backoff b now dead) now then
          (aD ++ aI, step_backoff b now dead, Except.ok ())
        else
          (aD ++ aI ++ (spawn_many env 0 (desired - running.length)).1,
            step_backoff b now dead,
            (spawn_many env 0 (desired - running.length)).2)
      else if desired < running.length then
        (aD ++ aI ++ (remove_each env (running.take (running.length - desired))).1,
          step_backoff b now dead,
          (remove_each env (running.take (running.length - desired))).2)
      else (aD ++ aI, step_backoff b now dead, Except.ok ()) := by
  simp only [reconcile, h1, h2, h3, h4]

theorem map_inspect_counts (ids : List String) :
    count_creates (ids.map Action.inspect) = 0 ∧
      count_removes (ids.map Action.inspect) = 0 := by
  induction ids with
  | nil => simp [count_creates, count_removes]
  | cons x xs ih =>
    simp only [List.map_cons, count_creates, count_removes, List.countP_cons] at ih ⊢
    simp [is_create_action, is_remove_action, ih.1, ih.2]

theorem remove_each_no_inspects (env : RuntimeEnv) (ids : List String) :
    count_inspects (remove_each env ids).1 = 0 := by
  induction ids with
  | nil => simp [remove_each, count_inspects]
  | cons x xs ih =>
    simp only [remove_each, graceful_remove_container]
    cases hr : env.removeResult x with
    | error e => simp [count_inspects, List.countP_cons, is_inspect_action]
    | ok u =>
      cases hrest : remove_each env xs with
      | mk a2 r2 =>
        simp only [hrest] at ih
        simp only [count_inspects, List.countP_append, List.countP_cons,
          is_inspect_action] at ih ⊢
        simpa using ih

/-! ## The claims -/

/-- C2: the classifier marks a record running iff its structured state
equals "running" or its free-text status case-insensitively contains "up"
or "running"; missing fields default to empty/unknown; "Up 3 seconds"
with unknown state is running, state "exited" with status "Exited (1)" is
dead, and a record with every field missing is classified (as dead, under
the defaulted empty id) rather than failing. -/
theorem C2_classification_rule :
    (∀ c : ContainerSummary,
      isRunningRecord c =
        ((c.state.getD SummaryState.empty == SummaryState.running) ||
          ci_contains (c.status.getD "") "up" ||
          ci_contains (c.status.getD "") "running")) ∧
    isRunningRecord ⟨some "a", none, some "Up 3 seconds"⟩ = true ∧
    isRunningRecord ⟨some "b", some SummaryState.exited, some "Exited (1)"⟩ = false ∧
    classify [⟨none, none, none⟩] = ([], [""]) := by
  refine ⟨?_, by decide, by decide, by decide⟩
  intro c
  have hup : strToLower "up" = "up" := rfl
  have hrun : strToLower "running" = "running" := rfl
  simp only [isRunningRecord, ci_contains, hup, hrun]

/-- C4: the backoff tracker is the specified state machine —
`register_failure` increments the counter and stamps the clock;
`maybe_reset` clears counter and stamp exactly when a stamp exists and
more than 300 s have elapsed, else changes nothing; `in_backoff` holds
exactly when a stamp exists, the counter has reached 5, and less than
30 s have elapsed since the stamp. -/
theorem C4_backoff_state_machine (b : BackoffState) (now : Nat) :
    register_failure b now =
      { consecutive_failures := b.consecutive_failures + 1,
        last_failure := some now } ∧
    ((∃ l, b.last_failure = some l ∧ 300 < now - l) →
      maybe_reset b now = { consecutive_failures := 0, last_failure := none }) ∧
    ((¬ ∃ l, b.last_failure = some l ∧ 300 < now - l) → maybe_reset b now = b) ∧
    (in_backoff b now = true ↔
      ∃ l, b.last_failure = some l ∧
        5 ≤ b.consecutive_failures ∧ now - l < 30) := by
  refine ⟨rfl, ?_, ?_, ?_⟩
  · rintro ⟨l, hl, hgt⟩
    simp [maybe_reset, hl, FAILURE_RESET_AFTER_SECS, hgt]
  · intro hno
    cases hl : b.last_failure with
    | none => simp [maybe_reset, hl]
    | some l =>
      have : ¬ 300 < now - l := fun hc => hno ⟨l, hl, hc⟩
      simp [maybe_reset, hl, FAILURE_RESET_AFTER_SECS, this]
  · cases hl : b.last_failure with
    | none => simp [in_backoff, hl]
    | some l =>
      simp [in_backoff, hl, MAX_CONSECUTIVE_FAILURES, BACKOFF_DURATION_SECS,
        and_assoc]

/-- C4 witness: a 301 s quiet period resets ⟨3, some 0⟩, and ⟨5, some 0⟩
is in backoff 10 s after the failure. -/
theorem C4_backoff_state_machine_witness :
    maybe_reset ⟨3, some 0⟩ 301 = ⟨0, none⟩ ∧ in_backoff ⟨5, some 0⟩ 10 = true := by
  refine ⟨(C4_backoff_state_machine ⟨3, some 0⟩ 301).2.1 ⟨0, rfl, by decide⟩, ?_⟩
  exact (C4_backoff_state_machine ⟨5, some 0⟩ 10).2.2.2.mpr ⟨0, rfl, by decide, by decide⟩

/-- C6 counterexample: the claim says the remove request is forced, but on
container "c0" the program issues `remove` with `force = false` and never
issues a forced remove. -/
theorem C6_counterexample_not_forced :
    (graceful_remove_container (mkEnv [] (some IMAGE)) "c0").1 =
      [Action.stop "c0" 5, Action.remove "c0" false] ∧
    ((graceful_remove_container (mkEnv [] (some IMAGE)) "c0").1.contains
      (Action.remove "c0" true)) = false := by decide

/-- C6 (amended): `graceful_remove_container` first issues a stop request
with a 5-second grace timeout whose outcome is ignored, then issues a
remove request with `force` disabled; only the remove request's outcome
propagates as the result. -/
theorem C6_graceful_remove (env : RuntimeEnv) (id : String) :
    graceful_remove_container env id =
      ([Action.stop id 5, Action.remove id false], env.removeResult id) := rfl

/-- C10: a successful spawn returns the locally generated name
`SERVICE_NAME ++ "-" ++ uuid`, not the daemon-reported create id `cid`
(absent from the conclusion), and the start request is addressed to that
generated name. -/
theorem C10_spawn_returns_generated_name (env : RuntimeEnv) (uuid cid : String)
    (hc : env.createResult (mk_container_name uuid) = Except.ok cid)
    (hs : env.startResult (mk_container_name uuid) = Except.ok ()) :
    spawn_replica_and_get_id env uuid =
      ([Action.create (mk_container_name uuid) IMAGE,
        Action.start (mk_container_name uuid)],
       Except.ok (mk_container_name uuid)) ∧
    mk_container_name uuid = SERVICE_NAME ++ "-" ++ uuid := by
  refine ⟨?_, rfl⟩
  simp [spawn_replica_and_get_id, hc, hs]

/-- C10 witness: with the daemon reporting create id "daemon-id-000", the
spawn of uuid "u7" returns "demo-nginx-u7", which differs from the daemon
id. -/
theorem C10_spawn_returns_generated_name_witness :
    spawn_replica_and_get_id (mkEnv [] (some IMAGE)) "u7" =
      ([Action.create "demo-nginx-u7" IMAGE, Action.start "demo-nginx-u7"],
        Except.ok "demo-nginx-u7") ∧
    ("demo-nginx-u7" : String) ≠ "daemon-id-000" := by
  refine ⟨?_, by decide⟩
  exact (C10_spawn_returns_generated_name (mkEnv [] (some IMAGE)) "u7"
    "daemon-id-000" rfl rfl).1

/-- C3: with no drift and no backoff, a tick with `running_count < desired`
issues exactly `desired - running_count` spawns and no removals beyond the
dead-cleanup prefix, and a tick with `running_count > desired` issues the
removals of exactly the first `running_count - desired` running ids, in
observer order, and no spawns. -/
theorem C3_scale_math (env : RuntimeEnv) (b : BackoffState) (now desired : Nat)
    (cs : List ContainerSummary) (running dead : List String) (aD aI : List Action)
    (h1 : env.listResult = Except.ok cs)
    (h2 : classify cs = (running, dead))
    (h3 : remove_each env dead = (aD, Except.ok ()))
    (h4 : collect_outdated env running = (aI, Except.ok [])) :
    (running.length < desired →
      in_backoff (step_backoff b now dead) now = false →
      (spawn_many env 0 (desired - running.length)).2 = Except.ok () →
      reconcile env b now desired =
        (aD ++ aI ++ (spawn_many env 0 (desired - running.length)).1,
          step_backoff b now dead, Except.ok ()) ∧
      count_creates (spawn_many env 0 (desired - running.length)).1 =
        desired - running.length ∧
      count_removes (aI ++ (spawn_many env 0 (desired - running.length)).1) = 0) ∧
    (desired < running.length →
      reconcile env b now desired =
        (aD ++ aI ++ (remove_each env (running.take (running.length - desired))).1,
          step_backoff b now dead,
          (remove_each env (running.take (running.length - desired))).2) ∧
      ((remove_each env (running.take (running.length - desired))).2 = Except.ok () →
        remove_targets
            (remove_each env (running.take (running.length - desired))).1 =
          running.take (running.length - desired)) ∧
      (running.take (running.length - desired)).length =
        running.length - desired ∧
      count_creates
        (aI ++ (remove_each env (running.take (running.length - desired))).1) = 0) := by
  have hEq := reconcile_eq env b now desired cs running dead aD aI [] h1 h2 h3 h4
  have haI : aI = running.map Action.inspect :=
    collect_outdated_ok_trace env running aI [] h4
  constructor
  · intro hlt hb hsp
    refine ⟨?_, spawn_many_ok_creates env (desired - running.length) 0 hsp, ?_⟩
    · rw [hEq]
      simp only [List.isEmpty_nil, Bool.not_true, Bool.false_eq_true, if_false,
        if_pos hlt, hb, hsp]
    · simp only [count_removes, List.countP_append] at *
      have h5 := spawn_many_no_removes env (desired - running.length) 0
      have h6 := (map_inspect_counts running).2
      simp only [count_removes] at h5 h6
      rw [haI]
      omega
  · intro hgt
    have hnlt : ¬ running.length < desired := Nat.lt_asymm hgt
    refine ⟨?_, remove_each_targets env (running.take (running.length - desired)), ?_, ?_⟩
    · rw [hEq]
      simp only [List.isEmpty_nil, Bool.not_true, Bool.false_eq_true, if_false,
        if_neg hnlt, if_pos hgt]
    · simp only [List.length_take]
      omega
    · have h5 := remove_each_no_creates env (running.take (running.length - desired))
      have h6 := (map_inspect_counts running).1
      simp only [count_creates, List.countP_append] at *
      rw [haI]
      omega

/-- C3 witness: desired 3 with one running replica issues exactly the two
spawns; desired 3 with five running replicas issues exactly the removals
of the first two. -/
theorem C3_scale_math_witness :
    reconcile (mkEnv cs_one_running (some IMAGE)) ⟨0, none⟩ 0 3 =
      ([Action.inspect "c1",
        Action.create "demo-nginx-uuid0" IMAGE, Action.start "demo-nginx-uuid0",
        Action.create "demo-nginx-uuid1" IMAGE, Action.start "demo-nginx-uuid1"],
        ⟨0, none⟩, Except.ok ()) ∧
    reconcile (mkEnv cs_five_running (some IMAGE)) ⟨0, none⟩ 0 3 =
      ([Action.inspect "c1", Action.inspect "c2", Action.inspect "c3",
        Action.inspect "c4", Action.inspect "c5",
        Action.stop "c1" 5, Action.remove "c1" false,
        Action.stop "c2" 5, Action.remove "c2" false],
        ⟨0, none⟩, Except.ok ()) := by
  constructor
  · exact ((C3_scale_math (mkEnv cs_one_running (some IMAGE)) ⟨0, none⟩ 0 3
      cs_one_running ["c1"] [] [] [Action.inspect "c1"]
      rfl rfl rfl rfl).1 (by decide) (by decide) rfl).1
  · exact ((C3_scale_math (mkEnv cs_five_running (some IMAGE)) ⟨0, none⟩ 0 3
      cs_five_running ["c1", "c2", "c3", "c4", "c5"] [] []
      [Action.inspect "c1", Action.inspect "c2", Action.inspect "c3",
        Action.inspect "c4", Action.inspect "c5"]
      rfl rfl rfl rfl).2 (by decide)).1

/-- C5: when `running_count < desired` and the backoff gate is active the
tick performs no spawns and still succeeds; and the gate never suppresses
dead-replica cleanup (the cleanup prefix `aD` is still issued) or
scale-down, which runs for any backoff state. -/
theorem C5_backoff_gate (env : RuntimeEnv) (b : BackoffState) (now desired : Nat)
    (cs : List ContainerSummary) (running dead : List String) (aD aI : List Action)
    (h1 : env.listResult = Except.ok cs)
    (h2 : classify cs = (running, dead))
    (h3 : remove_each env dead = (aD, Except.ok ()))
    (h4 : collect_outdated env running = (aI, Except.ok [])) :
    (running.length < desired →
      in_backoff (step_backoff b now dead) now = true →
      reconcile env b now desired = (aD ++ aI, step_backoff b now dead, Except.ok ()) ∧
      count_creates (aD ++ aI) = 0) ∧
    (desired < running.length →
      reconcile env b now desired =
        (aD ++ aI ++ (remove_each env (running.take (running.length - desired))).1,
          step_backoff b now dead,
          (remove_each env (running.take (running.length - desired))).2)) := by
  have hEq := reconcile_eq env b now desired cs running dead aD aI [] h1 h2 h3 h4
  have haI : aI = running.map Action.inspect :=
    collect_outdated_ok_trace env running aI [] h4
  have haD : aD = (remove_each env dead).1 := by rw [h3]
  constructor
  · intro hlt hb
    constructor
    · rw [hEq]
      simp only [List.isEmpty_nil, Bool.not_true, Bool.false_eq_true, if_false,
        if_pos hlt, hb, if_true]
    · have h5 := remove_each_no_creates env dead
      have h6 := (map_inspect_counts running).1
      simp only [count_creates, List.countP_append] at *
      rw [haI, haD]
      omega
  · intro hgt
    have hnlt : ¬ running.length < desired := Nat.lt_asymm hgt
    rw [hEq]
    simp only [List.isEmpty_nil, Bool.not_true, Bool.false_eq_true, if_false,
      if_neg hnlt, if_pos hgt]

/-- C5 witness: with one running replica, desired 3 and backoff state
⟨5, some 0⟩ at time 10, the tick issues only the inspection and succeeds
with no spawn; with five running replicas under the same backoff state the
scale-down removals are still issued. -/
theorem C5_backoff_gate_witness :
    reconcile (mkEnv cs_one_running (some IMAGE)) ⟨5, some 0⟩ 10 3 =
      ([Action.inspect "c1"], ⟨5, some 0⟩, Except.ok ()) ∧
    reconcile (mkEnv cs_five_running (some IMAGE)) ⟨5, some 0⟩ 10 3 =
      ([Action.inspect "c1", Action.inspect "c2", Action.inspect "c3",
        Action.inspect "c4", Action.inspect "c5",
        Action.stop "c1" 5, Action.remove "c1" false,
        Action.stop "c2" 5, Action.remove "c2" false],
        ⟨5, some 0⟩, Except.ok ()) := by
  constructor
  · exact ((C5_backoff_gate (mkEnv cs_one_running (some IMAGE)) ⟨5, some 0⟩ 10 3
      cs_one_running ["c1"] [] [] [Action.inspect "c1"]
      rfl rfl rfl rfl).1 (by decide) (by decide)).1
  · exact (C5_backoff_gate (mkEnv cs_five_running (some IMAGE)) ⟨5, some 0⟩ 10 3
      cs_five_running ["c1", "c2", "c3", "c4", "c5"] [] []
      [Action.inspect "c1", Action.inspect "c2", Action.inspect "c3",
        Action.inspect "c4", Action.inspect "c5"]
      rfl rfl rfl rfl).2 (by decide)

/-- C9: at steady state (running count equals desired, no dead, every
version label matching) a tick issues zero spawns and zero removals and
leaves only `maybe_reset` applied to the backoff state, so an immediate
second reconciliation of the same observation also issues no actions. -/
theorem C9_idempotent_steady_state (env : RuntimeEnv) (desired : Nat)
    (cs : List ContainerSummary) (running : List String) (aI : List Action)
    (h1 : env.listResult = Except.ok cs)
    (h2 : classify cs = (running, []))
    (hlen : running.length = desired)
    (h4 : collect_outdated env running = (aI, Except.ok [])) :
    ∀ b now,
      reconcile env b now desired = (aI, maybe_reset b now, Except.ok ()) ∧
      count_creates (reconcile env b now desired).1 = 0 ∧
      count_removes (reconcile env b now desired).1 = 0 ∧
      ∀ now2,
        reconcile env (reconcile env b now desired).2.1 now2 desired =
          (aI, maybe_reset (maybe_reset b now) now2, Except.ok ()) := by
  have haI : aI = running.map Action.inspect :=
    collect_outdated_ok_trace env running aI [] h4
  have hnlt : ¬ running.length < desired := by omega
  have hngt : ¬ desired < running.length := by omega
  have core : ∀ b now,
      reconcile env b now desired = (aI, maybe_reset b now, Except.ok ()) := by
    intro b now
    have hEq := reconcile_eq env b now desired cs running [] [] aI [] h1 h2 rfl h4
    rw [hEq]
    simp only [List.isEmpty_nil, Bool.not_true, Bool.false_eq_true, if_false,
      if_neg hnlt, if_neg hngt, step_backoff, if_true, List.nil_append]
  intro b now
  refine ⟨core b now, ?_, ?_, ?_⟩
  · rw [core b now, haI]
    exact (map_inspect_counts running).1
  · rw [core b now, haI]
    exact (map_inspect_counts running).2
  · intro now2
    rw [core b now]
    exact core (maybe_reset b now) now2

/-- C9 witness: three matching running replicas with desired 3 — both the
first and the immediately following reconciliation issue only the three
inspections, with no spawn or removal. -/
theorem C9_idempotent_steady_state_witness :
    reconcile (mkEnv cs_three_running (some IMAGE)) ⟨0, none⟩ 0 3 =
      ([Action.inspect "c1", Action.inspect "c2", Action.inspect "c3"],
        ⟨0, none⟩, Except.ok ()) ∧
    reconcile (mkEnv cs_three_running (some IMAGE))
        (reconcile (mkEnv cs_three_running (some IMAGE)) ⟨0, none⟩ 0 3).2.1 0 3 =
      ([Action.inspect "c1", Action.inspect "c2", Action.inspect "c3"],
        ⟨0, none⟩, Except.ok ()) := by
  have h := C9_idempotent_steady_state (mkEnv cs_three_running (some IMAGE)) 3
    cs_three_running ["c1", "c2", "c3"]
    [Action.inspect "c1", Action.inspect "c2", Action.inspect "c3"]
    rfl rfl rfl rfl ⟨0, none⟩ 0
  exact ⟨h.1, h.2.2.2 0⟩

/-- C1: if any currently-running replica's version label differs from the
desired image, the tick (after dead cleanup and inspections) performs the
rolling update over all currently-running replicas and ends there — its
trace and result are exactly those of `perform_rolling_update`, with no
scale-up or scale-down appended; on success the update trace is, for each
running replica in observed order, spawn then the 3 s settle delay then
graceful removal; a spawn or removal failure mid-sequence aborts the
remaining replacements. -/
theorem C1_rolling_update_on_drift (env : RuntimeEnv) (b : BackoffState)
    (now desired : Nat) (cs : List ContainerSummary)
    (running dead : List String) (aD aI : List Action) (outdated : List String)
    (h1 : env.listResult = Except.ok cs)
    (h2 : classify cs = (running, dead))
    (h3 : remove_each env dead = (aD, Except.ok ()))
    (h4 : collect_outdated env running = (aI, Except.ok outdated))
    (h5 : ∃ id ∈ running, ∃ v,
      env.inspectVersion id = Except.ok v ∧ v ≠ some IMAGE) :
    reconcile env b now desired =
      (aD ++ aI ++ (perform_rolling_update env 0 running).1,
        step_backoff b now dead, (perform_rolling_update env 0 running).2) ∧
    ((perform_rolling_update env 0 running).2 = Except.ok () →
      (perform_rolling_update env 0 running).1 = spec_rolling_trace env 0 running) ∧
    (∀ i old rest a e,
      spawn_replica_and_get_id env (env.uuidAt i) = (a, Except.error e) →
      perform_rolling_update env i (old :: rest) = (a, Except.error e)) ∧
    (∀ i old rest a x e,
      spawn_replica_and_get_id env (env.uuidAt i) = (a, Except.ok x) →
      env.removeResult old = Except.error e →
      perform_rolling_update env i (old :: rest) =
        (a ++ [Action.settleSleep 3] ++
          [Action.stop old 5, Action.remove old false], Except.error e)) := by
  have hne : outdated ≠ [] := by
    intro hout
    obtain ⟨id, hmem, v, hv, hvne⟩ := h5
    have := (collect_outdated_nil_iff env running aI outdated h4).1 hout id hmem
    rw [hv] at this
    exact hvne (Except.ok.inj this)
  refine ⟨?_, perform_rolling_update_ok_trace env running 0, ?_, ?_⟩
  · have hEq := reconcile_eq env b now desired cs running dead aD aI outdated
      h1 h2 h3 h4
    rw [hEq]
    have hemp : outdated.isEmpty = false := by
      cases outdated with
      | nil => exact absurd rfl hne
      | cons x xs => rfl
    simp [hemp]
  · intro i old rest a e hsp
    simp [perform_rolling_update, hsp]
  · intro i old rest a x e hsp hrm
    simp [perform_rolling_update, hsp, graceful_remove_container, hrm]

/-- C1 witness: one running replica labelled "nginx:1.25" while the
desired image is "nginx:alpine" — the tick performs exactly one
spawn-settle-remove cycle over it and nothing else. -/
theorem C1_rolling_update_on_drift_witness :
    reconcile (mkEnv cs_one_running (some "nginx:1.25")) ⟨0, none⟩ 0 3 =
      ([Action.inspect "c1",
        Action.create "demo-nginx-uuid0" IMAGE, Action.start "demo-nginx-uuid0",
        Action.settleSleep 3,
        Action.stop "c1" 5, Action.remove "c1" false],
        ⟨0, none⟩, Except.ok ()) := by
  exact (C1_rolling_update_on_drift (mkEnv cs_one_running (some "nginx:1.25"))
    ⟨0, none⟩ 0 3 cs_one_running ["c1"] [] [] [Action.inspect "c1"] ["c1"]
    rfl rfl rfl rfl ⟨"c1", by decide, some "nginx:1.25", rfl, by decide⟩).1

/-- C8: an error removing one dead replica propagates out of `reconcile`
and aborts the rest of the tick — the remaining dead removals, the drift
inspections and all scale actions are skipped; the loop body logs the
error, sleeps 5 s and continues, and no tick result makes the process
exit. -/
theorem C8_dead_removal_failure_aborts_tick (env : RuntimeEnv) (b : BackoffState)
    (now desired : Nat) (cs : List ContainerSummary)
    (running pre post : List String) (bad : String) (e : RError)
    (h1 : env.listResult = Except.ok cs)
    (h2 : classify cs = (running, pre ++ bad :: post))
    (hpre : (remove_each env pre).2 = Except.ok ())
    (hbad : env.removeResult bad = Except.error e) :
    reconcile env b now desired =
      ((remove_each env pre).1 ++ [Action.stop bad 5, Action.remove bad false],
        step_backoff b now (pre ++ bad :: post), Except.error e) ∧
    count_creates
      ((remove_each env pre).1 ++ [Action.stop bad 5, Action.remove bad false]) = 0 ∧
    count_inspects
      ((remove_each env pre).1 ++ [Action.stop bad 5, Action.remove bad false]) = 0 ∧
    remove_targets
      ((remove_each env pre).1 ++ [Action.stop bad 5, Action.remove bad false]) =
        pre ++ [bad] ∧
    loop_iteration (Except.error e) =
      (some ("reconcile error: " ++ e), LoopStep.continueAfterSleep 5) ∧
    (∀ r, (loop_iteration r).2 ≠ LoopStep.exitProcess) := by
  have hb2 : remove_each env (bad :: post) =
      ([Action.stop bad 5, Action.remove bad false], Except.error e) := by
    simp [remove_each, graceful_remove_container, hbad]
  have hdead : remove_each env (pre ++ bad :: post) =
      ((remove_each env pre).1 ++ [Action.stop bad 5, Action.remove bad false],
        Except.error e) := by
    rw [remove_each_ok_append env pre (bad :: post) hpre, hb2]
  refine ⟨?_, ?_, ?_, ?_, rfl, ?_⟩
  · simp only [reconcile, h1, h2, hdead]
  · have h5 := remove_each_no_creates env pre
    simp only [count_creates, List.countP_append, List.countP_cons,
      is_create_action] at h5 ⊢
    simp [h5]
  · have h5 := remove_each_no_inspects env pre
    simp only [count_inspects, List.countP_append, List.countP_cons,
      is_inspect_action] at h5 ⊢
    simp [h5]
  · have h5 := remove_each_targets env pre hpre
    simp only [remove_targets, List.filterMap_append] at h5 ⊢
    simp [h5, remove_targets]
  · intro r
    cases r with
    | error e2 => simp [loop_iteration]
    | ok u => simp [loop_iteration]

/-- C8 witness: one exited container whose removal fails with
"remove failed" — the tick issues only its stop and remove, returns the
error, and the loop body logs it and continues after the 5 s sleep. -/
theorem C8_dead_removal_failure_aborts_tick_witness :
    reconcile envRemoveFail ⟨0, none⟩ 0 3 =
      ([Action.stop "d1" 5, Action.remove "d1" false],
        ⟨1, some 0⟩, Except.error "remove failed") ∧
    loop_iteration (Except.error "remove failed") =
      (some "reconcile error: remove failed", LoopStep.continueAfterSleep 5) := by
  have h := C8_dead_removal_failure_aborts_tick envRemoveFail ⟨0, none⟩ 0 3
    [⟨some "d1", some SummaryState.exited, some "Exited (1)"⟩]
    [] [] [] "d1" "remove failed" rfl rfl rfl rfl
  exact ⟨h.1, h.2.2.2.2.1⟩

/-- C7 counterexample: two observed records whose missing ids both default
to `""`, one healthy and one exited — the identifier `""` appears in both
the running and the dead sequence, so they are not disjoint and the
identifier does not appear in exactly one of the two. -/
theorem C7_counterexample_duplicate_ids :
    classify cs_dup_ids = ([""], [""]) ∧
    "" ∈ (classify cs_dup_ids).1 ∧ "" ∈ (classify cs_dup_ids).2 := by decide

/-- C7 (amended): classification partitions the observed records — the
two identifier sequences together are a permutation of the observed
(defaulted) identifiers and their lengths sum to the observation count;
when the observed identifiers are pairwise distinct, the two sequences
are disjoint and every observed identifier appears in exactly one of
them. -/
theorem C7_partition (cs : List ContainerSummary) :
    ((classify cs).1 ++ (classify cs).2).Perm (cs.map idOf) ∧
    (classify cs).1.length + (classify cs).2.length = cs.length ∧
    ((cs.map idOf).Nodup →
      (classify cs).1.Disjoint (classify cs).2 ∧
      ∀ id ∈ cs.map idOf,
        (id ∈ (classify cs).1 ∧ id ∉ (classify cs).2) ∨
          (id ∈ (classify cs).2 ∧ id ∉ (classify cs).1)) := by
  have hperm := classify_perm cs
  refine ⟨hperm, ?_, ?_⟩
  · have := hperm.length_eq
    simpa using this
  · intro hnd
    have hnd2 : ((classify cs).1 ++ (classify cs).2).Nodup :=
      hperm.nodup_iff.mpr hnd
    have hdisj := (List.nodup_append.mp hnd2).2.2
    refine ⟨hdisj, ?_⟩
    intro id hid
    have hmem : id ∈ (classify cs).1 ++ (classify cs).2 :=
      hperm.mem_iff.mpr hid
    rcases List.mem_append.mp hmem with h | h
    · exact Or.inl ⟨h, fun hc => hdisj h hc⟩
    · exact Or.inr ⟨h, fun hc => hdisj hc h⟩

/-- C7 witness: two records with the distinct ids "a" and "b" — "a" lands
in exactly one of the two sequences. -/
theorem C7_partition_witness :
    ("a" ∈ (classify cs_two_distinct).1 ∧ "a" ∉ (classify cs_two_distinct).2) ∨
      ("a" ∈ (classify cs_two_distinct).2 ∧ "a" ∉ (classify cs_two_distinct).1) := by
  exact ((C7_partition cs_two_distinct).2.2 (by decide)).2 "a" (by decide)

end Bollardo
